import Mathlib

/-!
A formal model of the per-bucket migration engine of the `cellar-migration`
tool (`src/migrate.rs`) and of its destination S3 client (`src/radosgw/mod.rs`).

Pure computations (request construction, the diff over listings, pagination,
outcome classification) are translated directly from the Rust source.  Network
effects are made explicit: listing outcomes are passed in as `Except` values,
per-object upload outcomes as an oracle function, and the requests the engine
would issue are collected in an event trace.

The crate modules `src/riakcs` (the source-side client and its `dto` types)
and `src/radosgw/uploader.rs` are not part of this snapshot; definitions that
stand in for them are modelled from the specification and say so in their
doc comments.
-/

/-- Modelled from the spec: the source-side object descriptor `ObjectContents`
is defined in `src/riakcs/dto.rs`, which is missing from this snapshot.
Spec section 3 lists its fields: `key` (opaque UTF-8 string), `size`
(non-negative byte count), `etag` (opaque fingerprint string) and
`last_modified`. -/
structure ObjectContents where
  key : String
  size : Nat
  etag : String
  last_modified : String
deriving DecidableEq

/-- Accessor mirroring `ObjectContents::get_key` used by `migrate.rs`. -/
def ObjectContents.get_key (o : ObjectContents) : String := o.key

/-- Accessor mirroring `ObjectContents::get_size` used by `migrate.rs`
(an `i64` in Rust, cast to `usize` at every use site; modelled as `Nat`). -/
def ObjectContents.get_size (o : ObjectContents) : Nat := o.size

/-- The destination-side descriptor, mirroring the fields of
`rusoto_s3::Object` that the program reads: `key`, `e_tag`, and the rest of
the listing record. -/
structure RObject where
  key : Option String
  e_tag : Option String
  size : Option Int
  last_modified : Option String
deriving DecidableEq

/-- Modelled from the spec: the comparison `object != found` in
`migrate.rs:108` uses `impl PartialEq<rusoto_s3::Object> for ObjectContents`
from the missing `src/riakcs/dto.rs`.  Spec section 3 defines it: two
descriptors are equivalent when their keys match and their etag fingerprints
match under opaque string equality. -/
def objectEq (o : ObjectContents) (r : RObject) : Bool :=
  (r.key == some o.key) && (r.e_tag == some o.etag)

/-- The diff step of `migrate_bucket` (`migrate.rs:103`-`112`): keep a source
descriptor when no destination descriptor has its key, or when the first
destination descriptor with its key is not equivalent to it. -/
def diffRetain (src : List ObjectContents) (dst : List RObject) : List ObjectContents :=
  src.filter fun o =>
    match dst.find? (fun r => r.key == some o.get_key) with
    | some found => !objectEq o found
    | none => true

/-- The requests the engine issues, collected as an explicit trace.  The two
listing launches (`migrate.rs:80`-`81`) are reads; the remaining constructors
are the write operations of the destination client. -/
inductive MEvent where
  | listSource
  | listDest
  | putObject (key : String)
  | createMultipartUpload (key : String)
  | uploadPart (key : String)
  | completeMultipartUpload (key : String)
  | createBucket (bucket : String)
deriving DecidableEq

/-- Whether an event is one of the write operations. -/
def MEvent.isWrite : MEvent → Bool
  | .listSource => false
  | .listDest => false
  | _ => true

/-- `BucketMigrationStats` (`migrate.rs:15`-`21`).  The wall-clock field
`synchronization_time` is real elapsed time and is omitted from the model. -/
structure BucketMigrationStats where
  bucket : String
  synchronization_size : Nat
  objects : List ObjectContents
deriving DecidableEq

/-- `BucketMigrationError` (`migrate.rs:23`-`27`). -/
structure BucketMigrationError where
  errors : List String
  stats : BucketMigrationStats
deriving DecidableEq

/-- `BucketMigrationConfiguration` (`migrate.rs:41`-`55`). -/
structure BucketMigrationConfiguration where
  source_bucket : String
  source_access_key : String
  source_secret_key : String
  source_endpoint : String
  destination_bucket : String
  destination_access_key : String
  destination_secret_key : String
  destination_endpoint : String
  max_keys : Nat
  chunk_size : Nat
  sync_threads : Nat
  dry_run : Bool
deriving DecidableEq

/-- Failure of the destination listing, mirroring the two cases the engine
distinguishes in `RusotoError<ListObjectsV2Error>` (`migrate.rs:83`-`91`):
`NoSuchBucket` and everything else. -/
inductive ListDstError where
  | noSuchBucket (bucket : String)
  | other (msg : String)
deriving DecidableEq

/-- The `anyhow::Error` outcomes `migrate_bucket` can return, made structural:
a source-listing failure, a destination-listing failure (either the dedicated
missing-bucket message of `migrate.rs:88` or a pass-through), or the composite
`BucketMigrationError` of `migrate.rs:155`. -/
inductive MigrateError where
  | sourceListing (msg : String)
  | destNoSuchBucket (bucket : String)
  | destListing (msg : String)
  | bucketMigration (e : BucketMigrationError)
deriving DecidableEq

/-- The `or_else` adjustment of the destination listing
(`migrate.rs:81`-`94`): a `NoSuchBucket` failure degrades to an empty listing
when `dry_run` is set and is fatal otherwise; any other failure passes
through. -/
def adjustDestListing (dry_run : Bool) :
    Except ListDstError (List RObject) → Except MigrateError (List RObject)
  | .ok objs => .ok objs
  | .error (.noSuchBucket b) =>
      if dry_run then .ok [] else .error (.destNoSuchBucket b)
  | .error (.other m) => .error (.destListing m)

/-- The size accumulation `fold(0, |acc, object| acc + object.get_size() as usize)`
(`migrate.rs:151` and `migrate.rs:170`). -/
def sumSizes (objs : List ObjectContents) : Nat :=
  objs.foldl (fun acc o => acc + o.get_size) 0

/-- Modelled from the spec: the write requests the Uploader
(`src/radosgw/uploader.rs`, missing from this snapshot) issues for one object
— a single PUT when `size` is at most `chunk_size`, otherwise a multipart
upload with ceil(size / chunk_size) parts (spec sections 4.2 to 4.4). -/
def objectEvents (chunk_size : Nat) (o : ObjectContents) : List MEvent :=
  if o.get_size ≤ chunk_size then
    [MEvent.putObject o.get_key]
  else
    MEvent.createMultipartUpload o.get_key ::
      ((List.replicate ((o.get_size + chunk_size - 1) / chunk_size)
          (MEvent.uploadPart o.get_key)) ++
        [MEvent.completeMultipartUpload o.get_key])

/-- Modelled from the spec: the writes issued while the Uploader drains the
retained set (one batch of per-object writes per retained object). -/
def uploaderEvents (chunk_size : Nat) (objs : List ObjectContents) : List MEvent :=
  objs.flatMap (objectEvents chunk_size)

/-- The error-message formatting of `migrate.rs:159`. -/
def syncErrorMessage (bucket msg : String) : String :=
  bucket ++ " | Error synchronizing file: " ++ msg

/-- Modelled from the spec: the per-object result list produced by
`uploader.sync()` (`migrate.rs:123`; the Uploader source is missing from this
snapshot).  Per the contract of spec section 4.2 there is exactly one result
per input object, `Ok` carrying the descriptor or `Err` carrying a message;
the oracle `upload` decides which. -/
def uploadResults (upload : ObjectContents → Option String)
    (objs : List ObjectContents) : List (Except String ObjectContents) :=
  objs.map fun o =>
    match upload o with
    | some e => .error e
    | none => .ok o

/-- The error extraction of `migrate.rs:124`-`134`: the `Err` payloads of the
per-object results, in order. -/
def resultsErrors (results : List (Except String ObjectContents)) : List String :=
  results.filterMap fun r =>
    match r with
    | .error e => some e
    | .ok _ => none

/-- The success extraction of `migrate.rs:140`-`150`: the `Ok` payloads of the
per-object results, in order. -/
def resultsSuccesses (results : List (Except String ObjectContents)) :
    List ObjectContents :=
  results.filterMap fun r =>
    match r with
    | .error _ => none
    | .ok o => some o

/-- `migrate_bucket` (`migrate.rs:57`-`195`) as a function of the two listing
outcomes and a per-object upload oracle (`upload o = some msg` means the
Uploader reports object `o` failed with `msg`; `none` means it succeeded —
modelled from the spec contract of section 4.2: one result per input, `Ok`
carrying the descriptor).  Returns the outcome together with the trace of
issued requests: both listings are launched (`migrate.rs:80`-`81`, joined at
`migrate.rs:96`) before any result is inspected, and the Uploader runs only
when `dry_run` is unset and the retained set is non-empty
(`migrate.rs:114`-`122`). -/
def migrate_bucket (conf : BucketMigrationConfiguration)
    (srcListing : Except String (List ObjectContents))
    (dstListing : Except ListDstError (List RObject))
    (upload : ObjectContents → Option String) :
    Except MigrateError BucketMigrationStats × List MEvent :=
  let baseTrace := [MEvent.listSource, MEvent.listDest]
  match srcListing with
  | .error e => (.error (.sourceListing e), baseTrace)
  | .ok src =>
    match adjustDestListing conf.dry_run dstListing with
    | .error e => (.error e, baseTrace)
    | .ok dst =>
      let retained := diffRetain src dst
      if conf.dry_run then
        (.ok ⟨conf.source_bucket, 0, retained⟩, baseTrace)
      else if retained.isEmpty then
        (.ok ⟨conf.source_bucket, 0, retained⟩, baseTrace)
      else
        let results := uploadResults upload retained
        let trace := baseTrace ++ uploaderEvents conf.chunk_size retained
        if (resultsErrors results).isEmpty then
          (.ok ⟨conf.source_bucket, sumSizes retained, retained⟩, trace)
        else
          (.error (.bucketMigration
            ⟨(resultsErrors results).map (syncErrorMessage conf.source_bucket),
              ⟨conf.source_bucket, sumSizes (resultsSuccesses results), retained⟩⟩), trace)

/-- Modelled from the spec: the destination listing visible after a fully
successful run over source set `src`.  By the invariant of spec section 3 (a
successful transfer leaves the object fully present on Destination) and the
round-trip property of section 8, each source object is then listed on the
destination under its key with a matching etag fingerprint. -/
def destAfter (src : List ObjectContents) : List RObject :=
  src.map fun o => ⟨some o.key, some o.etag, some (o.size : Int), some o.last_modified⟩

/-- Modelled from the spec: the metadata header set of `ObjectMetadata` in the
missing `src/riakcs/dto.rs`; spec section 3 lists exactly these HTTP-style
headers, carried verbatim when present. -/
structure ObjectMetadata where
  cache_control : Option String
  content_disposition : Option String
  content_encoding : Option String
  content_language : Option String
  content_md5 : Option String
  content_type : Option String
  expires : Option String
deriving DecidableEq

/-- Modelled from the spec: `ObjectMetadataResponse` from the missing
`src/riakcs/dto.rs` — the per-object ACL flag plus the header set; these are
the two fields `radosgw/mod.rs` reads from it. -/
structure ObjectMetadataResponse where
  acl_public : Bool
  metadata : ObjectMetadata
deriving DecidableEq

/-- The fields of `rusoto_s3::PutObjectRequest` that `RadosGW::put_object`
sets (`radosgw/mod.rs:63`-`81`); `has_body` records that the body stream is
attached; every other rusoto field is left at its default. -/
structure PutObjectRequest where
  key : String
  bucket : String
  has_body : Bool
  content_length : Option Int
  acl : Option String
  cache_control : Option String
  content_disposition : Option String
  content_encoding : Option String
  content_language : Option String
  content_md5 : Option String
  content_type : Option String
  expires : Option String
deriving DecidableEq

/-- The fields of `rusoto_s3::CreateMultipartUploadRequest` that
`RadosGW::create_multipart_upload` sets (`radosgw/mod.rs:92`-`108`); the
request type carries neither `content_length` nor (as set here) `content_md5`. -/
structure CreateMultipartUploadRequest where
  key : String
  bucket : String
  acl : Option String
  cache_control : Option String
  content_disposition : Option String
  content_encoding : Option String
  content_language : Option String
  content_type : Option String
  expires : Option String
deriving DecidableEq

/-- `RadosGW` (`radosgw/mod.rs:16`-`22`). -/
structure RadosGW where
  endpoint : String
  access_key : String
  secret_key : String
  bucket : String
deriving DecidableEq

/-- The request `RadosGW::put_object` sends (`radosgw/mod.rs:56`-`85`),
modelling the method by the `PutObjectRequest` it constructs. -/
def RadosGW.put_object (self : RadosGW) (key : String)
    (object_metadata : ObjectMetadataResponse) (size : Int) : PutObjectRequest :=
  { key := key
    bucket := self.bucket
    has_body := true
    content_length := some size
    acl := if object_metadata.acl_public then some "public-read" else none
    cache_control := object_metadata.metadata.cache_control
    content_disposition := object_metadata.metadata.content_disposition
    content_encoding := object_metadata.metadata.content_encoding
    content_language := object_metadata.metadata.content_language
    content_md5 := object_metadata.metadata.content_md5
    content_type := object_metadata.metadata.content_type
    expires := object_metadata.metadata.expires }

/-- The request `RadosGW::create_multipart_upload` sends
(`radosgw/mod.rs:87`-`114`), modelling the method by the
`CreateMultipartUploadRequest` it constructs. -/
def RadosGW.create_multipart_upload (self : RadosGW) (key : String)
    (object_metadata : ObjectMetadataResponse) : CreateMultipartUploadRequest :=
  { key := key
    bucket := self.bucket
    acl := if object_metadata.acl_public then some "public-read" else none
    cache_control := object_metadata.metadata.cache_control
    content_disposition := object_metadata.metadata.content_disposition
    content_encoding := object_metadata.metadata.content_encoding
    content_language := object_metadata.metadata.content_language
    content_type := object_metadata.metadata.content_type
    expires := object_metadata.metadata.expires }

/-- `rusoto_s3::UploadPartOutput`, restricted to the field the program reads. -/
structure UploadPartOutput where
  e_tag : Option String
deriving DecidableEq

/-- `rusoto_s3::CompletedPart`. -/
structure CompletedPart where
  e_tag : Option String
  part_number : Option Int
deriving DecidableEq

/-- `rusoto_s3::CompletedMultipartUpload`. -/
structure CompletedMultipartUpload where
  parts : Option (List CompletedPart)
deriving DecidableEq

/-- The fields of `rusoto_s3::CompleteMultipartUploadRequest` that
`RadosGW::complete_multipart_upload` sets (`radosgw/mod.rs:156`-`162`). -/
structure CompleteMultipartUploadRequest where
  key : String
  bucket : String
  upload_id : String
  multipart_upload : Option CompletedMultipartUpload
deriving DecidableEq

/-- The request `RadosGW::complete_multipart_upload` sends
(`radosgw/mod.rs:138`-`168`): the part list is mapped element-wise from the
caller-given `(part_number, UploadPartOutput)` pairs (the `usize` part number
cast to `i64`). -/
def RadosGW.complete_multipart_upload (self : RadosGW) (key upload_id : String)
    (parts : List (Nat × UploadPartOutput)) : CompleteMultipartUploadRequest :=
  { key := key
    bucket := self.bucket
    upload_id := upload_id
    multipart_upload :=
      some ⟨some (parts.map fun p => ⟨p.2.e_tag, some (p.1 : Int)⟩)⟩ }

/-- `rusoto_s3::Bucket`, restricted to the `name` field the program reads. -/
structure RBucket where
  name : Option String
deriving DecidableEq

/-- Outcome of the dry-run probe listing with limit 1 (`migrate.rs:251`). -/
inductive ProbeOutcome where
  | ok
  | noSuchBucket
  | otherError (msg : String)
deriving DecidableEq

/-- Outcome of `create_bucket` (`migrate.rs:268`). -/
inductive CreateOutcome where
  | ok
  | alreadyOwnedByYou
  | otherError (msg : String)
deriving DecidableEq

/-- The per-bucket destination operations of `create_destination_buckets`:
`probeList b` is the dry-run `list_objects(Some(1))` against bucket `b`
(`migrate.rs:251`), `createBucket b` is `create_bucket(b)` (`migrate.rs:268`). -/
inductive CdbEvent where
  | probeList (bucket : String)
  | createBucket (bucket : String)
deriving DecidableEq

/-- The destination bucket an operation targets. -/
def CdbEvent.target : CdbEvent → String
  | .probeList b => b
  | .createBucket b => b

/-- The membership test of `migrate.rs:222`-`229`: does any existing
destination bucket carry this name?  Short-circuits left to right like
`Iterator::any`; a listed bucket without a name hits the
`expect("RadosGW bucket should have a name")` panic, modelled as `none`. -/
def bucketNameMatches (nm : String) : List RBucket → Option Bool
  | [] => some false
  | rb :: rest =>
    match rb.name with
    | none => none
    | some n => if nm = n then some true else bucketNameMatches nm rest

/-- The `missing_buckets` filter of `migrate.rs:213`-`232`: the source buckets
whose derived name (`pfx` is the Rust `destination_bucket_prefix` argument,
concatenated before the source bucket name) matches no existing destination
bucket. -/
def missingBuckets (pfx : String) (buckets : List String)
    (radosgw_buckets : List RBucket) : Option (List String) :=
  match buckets with
  | [] => some []
  | b :: rest =>
    match bucketNameMatches (pfx ++ b) radosgw_buckets with
    | none => none
    | some true => missingBuckets pfx rest radosgw_buckets
    | some false =>
      match missingBuckets pfx rest radosgw_buckets with
      | none => none
      | some l => some (b :: l)

/-- The loop of `create_destination_buckets` over the missing buckets
(`migrate.rs:234`-`283`): derive the target name — `pfx` + the configured
destination name when one is given, `pfx` + the source bucket name otherwise
(`migrate.rs:235`-`239`) — then probe it (dry run) or create it, returning at
the first fatal error.  `probe` and `create` are the network outcomes. -/
def cdbLoop (destination_bucket : Option String) (pfx : String) (dry_run : Bool)
    (probe : String → ProbeOutcome) (create : String → CreateOutcome) :
    List String → Except String Unit × List CdbEvent
  | [] => (.ok (), [])
  | b :: rest =>
    let target :=
      match destination_bucket with
      | some d => pfx ++ d
      | none => pfx ++ b
    let step := cdbLoop destination_bucket pfx dry_run probe create rest
    if dry_run then
      match probe target with
      | .ok => (step.1, .probeList target :: step.2)
      | .noSuchBucket => (step.1, .probeList target :: step.2)
      | .otherError e => (.error e, [.probeList target])
    else
      match create target with
      | .ok => (step.1, .createBucket target :: step.2)
      | .alreadyOwnedByYou => (step.1, .createBucket target :: step.2)
      | .otherError e => (.error e, [.createBucket target])

/-- `create_destination_buckets` (`migrate.rs:197`-`286`), with the network
plumbing (endpoint and credentials) dropped and the listing of existing
destination buckets passed in; `none` models the name-`expect` panic. -/
def create_destination_buckets (destination_bucket : Option String)
    (pfx : String) (buckets : List String) (dry_run : Bool)
    (radosgw_buckets : List RBucket) (probe : String → ProbeOutcome)
    (create : String → CreateOutcome) :
    Option (Except String Unit × List CdbEvent) :=
  match missingBuckets pfx buckets radosgw_buckets with
  | none => none
  | some missing => some (cdbLoop destination_bucket pfx dry_run probe create missing)

/-- `RadosGW::list_objects` (`radosgw/mod.rs:188`-`216`), one loop iteration
at a time.  `fetch` is the server: the `contents` of the `list_objects_v2`
response for a given `start_after` (after `unwrap_or_default`, so a missing
`contents` is the empty page).  The Rust `loop` ends only when the server
returns an empty page, so `fuel` bounds the number of requests; `none` models
fuel running out, and also the `expect("Object should have a key")` panic
when the last accumulated object carries no key.  On success the accumulated
objects are returned together with the `start_after` of every request issued,
in order. -/
def list_objects_go (fetch : Option String → List RObject) :
    Nat → List RObject → Option (List RObject × List (Option String))
  | 0, _ => none
  | fuel + 1, acc =>
    match acc.getLast? with
    | some o =>
      match o.key with
      | none => none
      | some k =>
        if (fetch (some k)).isEmpty then some (acc, [some k])
        else
          match list_objects_go fetch fuel (acc ++ fetch (some k)) with
          | none => none
          | some (res, tr) => some (res, some k :: tr)
    | none =>
      if (fetch none).isEmpty then some (acc, [none])
      else
        match list_objects_go fetch fuel (acc ++ fetch none) with
        | none => none
        | some (res, tr) => some (res, none :: tr)

/-- `RadosGW::list_objects` started on the empty result vector
(`radosgw/mod.rs:191`). -/
def list_objects (fetch : Option String → List RObject) (fuel : Nat) :
    Option (List RObject × List (Option String)) :=
  list_objects_go fetch fuel []

/-- The pagination contract of one run of the listing loop started at
accumulator `acc`, with final result `res` and request trace `tr` (the
`start_after` of each request, in order): the first request continues from
the accumulator, the result is the accumulator followed by all pages in
order, the final page is empty, every earlier page is non-empty, and every
later request starts after the key of the last object received so far. -/
def PaginationInv (fetch : Option String → List RObject) (acc res : List RObject)
    (tr : List (Option String)) : Prop :=
  tr ≠ [] ∧
    tr.head? = some (acc.getLast?.bind fun o => o.key) ∧
    res = acc ++ (tr.map fetch).flatten ∧
    (tr.map fetch).getLast? = some [] ∧
    ∀ i (hi : i + 1 < tr.length),
      fetch (tr.get ⟨i, Nat.lt_of_succ_lt hi⟩) ≠ [] ∧
      tr.get ⟨i + 1, hi⟩ =
        ((acc ++ ((tr.take (i + 1)).map fetch).flatten).getLast?.bind fun o => o.key)

/-- A concrete two-page server for exercising the pagination loop: the first
request returns the object with key `a`, the request starting after `a`
returns the object with key `b`, and every other request returns the empty
page. -/
def pagFetchExample : Option String → List RObject
  | none => [⟨some "a", some "ea", some 1, none⟩]
  | some s => if s = "a" then [⟨some "b", some "eb", some 2, none⟩] else []

/-- Helper: in a destination listing with pairwise-distinct keys, two members
with the same key are the same descriptor. -/
theorem key_inj_of_pairwise {dst : List RObject}
    (hkeys : dst.Pairwise fun a b => a.key ≠ b.key) {r₁ r₂ : RObject}
    (h₁ : r₁ ∈ dst) (h₂ : r₂ ∈ dst) (hk : r₁.key = r₂.key) : r₁ = r₂ := by
  by_contra hne
  have hsym : Symmetric fun (a b : RObject) => a.key ≠ b.key := by
    intro a b h e
    exact h e.symm
  exact List.Pairwise.forall hsym hkeys h₁ h₂ hne hk

/-- C1: in `migrate_bucket`, a source descriptor is retained for transfer iff
either no destination descriptor has a matching key, or the (unique, given
pairwise-distinct destination keys) matching destination descriptor differs
from it in the etag fingerprint — opaque string comparison of etags is the
only field that participates once the keys match. -/
theorem diffRetain_mem_iff (src : List ObjectContents) (dst : List RObject)
    (hkeys : dst.Pairwise fun a b => a.key ≠ b.key) (o : ObjectContents) :
    o ∈ diffRetain src dst ↔
      o ∈ src ∧
        ((¬ ∃ r ∈ dst, r.key = some o.key) ∨
          ∃ r ∈ dst, r.key = some o.key ∧ r.e_tag ≠ some o.etag) := by
  unfold diffRetain
  rw [List.mem_filter]
  refine and_congr_right fun _ => ?_
  rcases hfind : dst.find? (fun r => r.key == some o.get_key) with _ | found
  · rw [hfind]
    constructor
    · intro _
      left
      rintro ⟨r, hr, hkey⟩
      have := List.find?_eq_none.mp hfind r hr
      simp [ObjectContents.get_key, hkey] at this
    · intro _
      rfl
  · have hmem := List.mem_of_find?_eq_some hfind
    have hkey : found.key = some o.key := by
      have := List.find?_some hfind
      simpa [ObjectContents.get_key] using this
    rw [hfind]
    constructor
    · intro h
      right
      refine ⟨found, hmem, hkey, ?_⟩
      have h' : (!objectEq o found) = true := h
      simpa [objectEq, hkey] using h'
    · rintro (habs | ⟨r, hr, hrkey, hretag⟩)
      · exact absurd ⟨found, hmem, hkey⟩ habs
      · have hrf : r = found := key_inj_of_pairwise hkeys hr hmem (hrkey.trans hkey.symm)
        rw [hrf] at hretag
        show (!objectEq o found) = true
        simpa [objectEq, hkey] using hretag

/-- Witness for C1 at a concrete input: an object whose destination copy has a
matching key but a different etag is retained. -/
theorem diffRetain_mem_iff_witness :
    (⟨"a", 1, "e1", "t"⟩ : ObjectContents) ∈
        diffRetain [⟨"a", 1, "e1", "t"⟩] [⟨some "a", some "e2", some 1, none⟩] ↔
      (⟨"a", 1, "e1", "t"⟩ : ObjectContents) ∈ [(⟨"a", 1, "e1", "t"⟩ : ObjectContents)] ∧
        ((¬ ∃ r ∈ [(⟨some "a", some "e2", some 1, none⟩ : RObject)], r.key = some "a") ∨
          ∃ r ∈ [(⟨some "a", some "e2", some 1, none⟩ : RObject)],
            r.key = some "a" ∧ r.e_tag ≠ some "e1") :=
  diffRetain_mem_iff [⟨"a", 1, "e1", "t"⟩] [⟨some "a", some "e2", some 1, none⟩]
    (by simp) ⟨"a", 1, "e1", "t"⟩

/-- C2: with `dry_run = true` the engine issues exactly the two listings and
no write whatsoever, and — when both listings succeed — returns `Ok` stats
with `synchronization_size = 0` and the retained (diffed) object list. -/
theorem migrate_bucket_dry_run (conf : BucketMigrationConfiguration)
    (srcListing : Except String (List ObjectContents))
    (dstListing : Except ListDstError (List RObject))
    (upload : ObjectContents → Option String)
    (hdry : conf.dry_run = true) :
    (migrate_bucket conf srcListing dstListing upload).2 =
        [MEvent.listSource, MEvent.listDest] ∧
      (∀ e ∈ (migrate_bucket conf srcListing dstListing upload).2, e.isWrite = false) ∧
      (∀ src dst, srcListing = .ok src → dstListing = .ok dst →
        (migrate_bucket conf srcListing dstListing upload).1 =
          .ok ⟨conf.source_bucket, 0, diffRetain src dst⟩) := by
  have htrace : (migrate_bucket conf srcListing dstListing upload).2 =
      [MEvent.listSource, MEvent.listDest] := by
    cases srcListing with
    | error e => rfl
    | ok src =>
      cases dstListing with
      | ok dst => simp [migrate_bucket, adjustDestListing, hdry]
      | error e =>
        cases e with
        | noSuchBucket b => simp [migrate_bucket, adjustDestListing, hdry]
        | other m => simp [migrate_bucket, adjustDestListing, hdry]
  refine ⟨htrace, ?_, ?_⟩
  · intro e he
    rw [htrace] at he
    simp only [List.mem_cons, List.not_mem_nil, or_false] at he
    rcases he with rfl | rfl
    · rfl
    · rfl
  · intro src dst hs hd
    subst hs
    subst hd
    simp [migrate_bucket, adjustDestListing, hdry]

/-- Witness for C2 at a concrete input: one source object, destination empty,
dry run — no writes, `Ok` with size zero and the object retained. -/
theorem migrate_bucket_dry_run_witness :
    (migrate_bucket ⟨"s", "ak", "sk", "se", "d", "dk", "ds", "de", 1000, 5242880, 4, true⟩
          (Except.ok [⟨"a", 7, "e", "t"⟩]) (Except.ok []) (fun _ => none)).2 =
        [MEvent.listSource, MEvent.listDest] ∧
      (∀ e ∈ (migrate_bucket
            ⟨"s", "ak", "sk", "se", "d", "dk", "ds", "de", 1000, 5242880, 4, true⟩
            (Except.ok [⟨"a", 7, "e", "t"⟩]) (Except.ok []) (fun _ => none)).2,
          e.isWrite = false) ∧
      (∀ src dst, (Except.ok [⟨"a", 7, "e", "t"⟩] : Except String (List ObjectContents)) =
            .ok src →
          (Except.ok [] : Except ListDstError (List RObject)) = .ok dst →
          (migrate_bucket ⟨"s", "ak", "sk", "se", "d", "dk", "ds", "de", 1000, 5242880, 4, true⟩
              (Except.ok [⟨"a", 7, "e", "t"⟩]) (Except.ok []) (fun _ => none)).1 =
            .ok ⟨"s", 0, diffRetain src dst⟩) :=
  migrate_bucket_dry_run ⟨"s", "ak", "sk", "se", "d", "dk", "ds", "de", 1000, 5242880, 4, true⟩
    (Except.ok [⟨"a", 7, "e", "t"⟩]) (Except.ok []) (fun _ => none) rfl

/-- C4: a `NoSuchBucket` destination-listing failure under `dry_run` makes the
engine behave exactly as an empty destination listing; without `dry_run` it is
fatal, and any other destination-listing failure is fatal regardless — in the
fatal cases the engine returns an error with only the two listing launches in
its trace, so no transfer is attempted. -/
theorem migrate_bucket_dest_failure (conf : BucketMigrationConfiguration)
    (srcListing : Except String (List ObjectContents))
    (upload : ObjectContents → Option String) (b m : String) :
    (conf.dry_run = true →
        migrate_bucket conf srcListing (.error (.noSuchBucket b)) upload =
          migrate_bucket conf srcListing (.ok []) upload) ∧
      (conf.dry_run = false →
        (migrate_bucket conf srcListing (.error (.noSuchBucket b)) upload).1 =
            .error (.destNoSuchBucket b) ∨
          (∃ e, (migrate_bucket conf srcListing (.error (.noSuchBucket b)) upload).1 =
            .error (.sourceListing e))) ∧
      (conf.dry_run = false →
        (migrate_bucket conf srcListing (.error (.noSuchBucket b)) upload).2 =
          [MEvent.listSource, MEvent.listDest]) ∧
      ((migrate_bucket conf srcListing (.error (.other m)) upload).1.isOk = false ∧
        (migrate_bucket conf srcListing (.error (.other m)) upload).2 =
          [MEvent.listSource, MEvent.listDest]) := by
  refine ⟨?_, ?_, ?_, ?_, ?_⟩
  · intro hdry
    cases srcListing with
    | error e => rfl
    | ok src => simp [migrate_bucket, adjustDestListing, hdry]
  · intro hdry
    cases srcListing with
    | error e => exact Or.inr ⟨e, rfl⟩
    | ok src =>
      left
      simp [migrate_bucket, adjustDestListing, hdry]
  · intro hdry
    cases srcListing with
    | error e => rfl
    | ok src => simp [migrate_bucket, adjustDestListing, hdry]
  · cases srcListing with
    | error e => rfl
    | ok src => simp [migrate_bucket, adjustDestListing, Except.isOk, Except.toBool]
  · cases srcListing with
    | error e => rfl
    | ok src => simp [migrate_bucket, adjustDestListing]

/-- Witness for C4 at a concrete input: missing destination bucket without
`dry_run` is fatal before any transfer. -/
theorem migrate_bucket_dest_failure_witness :
    (migrate_bucket ⟨"s", "ak", "sk", "se", "d", "dk", "ds", "de", 1000, 5242880, 4, false⟩
            (Except.ok []) (.error (.noSuchBucket "d")) (fun _ => none)).1 =
          .error (.destNoSuchBucket "d") ∨
        (∃ e, (migrate_bucket
            ⟨"s", "ak", "sk", "se", "d", "dk", "ds", "de", 1000, 5242880, 4, false⟩
            (Except.ok []) (.error (.noSuchBucket "d")) (fun _ => none)).1 =
          .error (.sourceListing e)) :=
  (migrate_bucket_dest_failure
      ⟨"s", "ak", "sk", "se", "d", "dk", "ds", "de", 1000, 5242880, 4, false⟩
      (Except.ok []) (fun _ => none) "d" "m").2.1 rfl

/-- Helper: the error messages extracted from the per-object results are the
`some` values of the oracle, in order. -/
theorem resultsErrors_uploadResults (upload : ObjectContents → Option String)
    (l : List ObjectContents) :
    resultsErrors (uploadResults upload l) = l.filterMap upload := by
  induction l with
  | nil => rfl
  | cons a t ih =>
    simp only [uploadResults, List.map_cons, resultsErrors, List.filterMap_cons] at *
    cases h : upload a <;> simp [h, ih]

/-- Helper: the successful descriptors extracted from the per-object results
are exactly the objects the oracle lets through. -/
theorem resultsSuccesses_uploadResults (upload : ObjectContents → Option String)
    (l : List ObjectContents) :
    resultsSuccesses (uploadResults upload l) =
      l.filter fun o => (upload o).isNone := by
  induction l with
  | nil => rfl
  | cons a t ih =>
    simp only [uploadResults, List.map_cons, resultsSuccesses, List.filterMap_cons,
      List.filter_cons] at *
    cases h : upload a <;> simp [h, ih]

/-- Helper: `filterMap` yields one output element per input on which the
function fires. -/
theorem length_filterMap_eq_length_filter {α β : Type} (f : α → Option β)
    (l : List α) :
    (l.filterMap f).length = (l.filter fun a => (f a).isSome).length := by
  induction l with
  | nil => rfl
  | cons a t ih => cases h : f a <;> simp [List.filterMap_cons, List.filter_cons, h, ih]

/-- C3: once the Uploader has drained a non-empty retained set, the engine
returns `Ok` iff every per-object result succeeded; on success the stats carry
the sum of the sizes of the successfully transferred objects (all of them),
and on failure it returns a `BucketMigrationError` carrying the stats — whose
size is again the sum over the successful objects — together with exactly one
error string per failed object. -/
theorem migrate_bucket_drain_classification (conf : BucketMigrationConfiguration)
    (src : List ObjectContents) (dst : List RObject)
    (upload : ObjectContents → Option String)
    (hdry : conf.dry_run = false)
    (hne : diffRetain src dst ≠ []) :
    (((migrate_bucket conf (.ok src) (.ok dst) upload).1.isOk = true) ↔
        ∀ o ∈ diffRetain src dst, upload o = none) ∧
      ((∀ o ∈ diffRetain src dst, upload o = none) →
        (migrate_bucket conf (.ok src) (.ok dst) upload).1 =
          .ok ⟨conf.source_bucket,
            sumSizes ((diffRetain src dst).filter fun o => (upload o).isNone),
            diffRetain src dst⟩) ∧
      ((¬ ∀ o ∈ diffRetain src dst, upload o = none) →
        (migrate_bucket conf (.ok src) (.ok dst) upload).1 =
          .error (.bucketMigration
            ⟨((diffRetain src dst).filterMap upload).map
                (syncErrorMessage conf.source_bucket),
              ⟨conf.source_bucket,
                sumSizes ((diffRetain src dst).filter fun o => (upload o).isNone),
                diffRetain src dst⟩⟩) ∧
        (((diffRetain src dst).filterMap upload).map
              (syncErrorMessage conf.source_bucket)).length =
          ((diffRetain src dst).filter fun o => (upload o).isSome).length) := by
  have hie : (diffRetain src dst).isEmpty = false := by
    simpa [List.isEmpty_iff] using hne
  have herr := resultsErrors_uploadResults upload (diffRetain src dst)
  have hsucc := resultsSuccesses_uploadResults upload (diffRetain src dst)
  by_cases hall : ∀ o ∈ diffRetain src dst, upload o = none
  · have hnil : (diffRetain src dst).filterMap upload = [] :=
      List.filterMap_eq_nil_iff.mpr hall
    have hfilter : ((diffRetain src dst).filter fun o => (upload o).isNone) =
        diffRetain src dst := by
      rw [List.filter_eq_self]
      intro o ho
      simp [hall o ho]
    refine ⟨?_, ?_, ?_⟩
    · simp only [migrate_bucket, adjustDestListing, hdry, hie, herr, hnil]
      simp only [List.isEmpty_nil, Bool.false_eq_true, if_false, if_true, Except.isOk,
        Except.toBool, true_iff]
      exact hall
    · intro _
      simp only [migrate_bucket, adjustDestListing, hdry, hie, herr, hnil]
      simp [hfilter]
    · intro hcon
      exact absurd hall hcon
  · have hnnil : (diffRetain src dst).filterMap upload ≠ [] := by
      intro h
      exact hall (List.filterMap_eq_nil_iff.mp h)
    have hineb : ((diffRetain src dst).filterMap upload).isEmpty = false := by
      simpa [List.isEmpty_iff] using hnnil
    refine ⟨?_, ?_, ?_⟩
    · simp only [migrate_bucket, adjustDestListing, hdry, hie, herr, hineb]
      simp [Except.isOk, Except.toBool, hall]
    · intro hcon
      exact absurd hcon hall
    · intro _
      refine ⟨?_, ?_⟩
      · simp only [migrate_bucket, adjustDestListing, hdry, hie, herr, hsucc, hineb]
        simp
      · rw [List.length_map]
        exact length_filterMap_eq_length_filter upload (diffRetain src dst)

/-- Witness for C3 at a concrete input: two retained objects, one failing —
composite error with one message, stats counting only the successful size. -/
theorem migrate_bucket_drain_classification_witness :
    (((migrate_bucket ⟨"s", "ak", "sk", "se", "d", "dk", "ds", "de", 1000, 5242880, 4, false⟩
            (Except.ok [⟨"a", 10, "ea", "t"⟩, ⟨"b", 20, "eb", "t"⟩]) (Except.ok [])
            (fun o => if o.key = "b" then some "boom" else none)).1.isOk = true) ↔
        ∀ o ∈ diffRetain [⟨"a", 10, "ea", "t"⟩, ⟨"b", 20, "eb", "t"⟩] [],
          (if o.key = "b" then some "boom" else none) = none) ∧
      ((∀ o ∈ diffRetain [⟨"a", 10, "ea", "t"⟩, ⟨"b", 20, "eb", "t"⟩] [],
          (if o.key = "b" then some "boom" else none) = none) →
        (migrate_bucket ⟨"s", "ak", "sk", "se", "d", "dk", "ds", "de", 1000, 5242880, 4, false⟩
            (Except.ok [⟨"a", 10, "ea", "t"⟩, ⟨"b", 20, "eb", "t"⟩]) (Except.ok [])
            (fun o => if o.key = "b" then some "boom" else none)).1 =
          .ok ⟨"s",
            sumSizes ((diffRetain [⟨"a", 10, "ea", "t"⟩, ⟨"b", 20, "eb", "t"⟩] []).filter
              fun o => (if o.key = "b" then some "boom" else none).isNone),
            diffRetain [⟨"a", 10, "ea", "t"⟩, ⟨"b", 20, "eb", "t"⟩] []⟩) ∧
      ((¬ ∀ o ∈ diffRetain [⟨"a", 10, "ea", "t"⟩, ⟨"b", 20, "eb", "t"⟩] [],
          (if o.key = "b" then some "boom" else none) = none) →
        (migrate_bucket ⟨"s", "ak", "sk", "se", "d", "dk", "ds", "de", 1000, 5242880, 4, false⟩
            (Except.ok [⟨"a", 10, "ea", "t"⟩, ⟨"b", 20, "eb", "t"⟩]) (Except.ok [])
            (fun o => if o.key = "b" then some "boom" else none)).1 =
          .error (.bucketMigration
            ⟨((diffRetain [⟨"a", 10, "ea", "t"⟩, ⟨"b", 20, "eb", "t"⟩] []).filterMap
                  (fun o => if o.key = "b" then some "boom" else none)).map
                (syncErrorMessage "s"),
              ⟨"s",
                sumSizes ((diffRetain [⟨"a", 10, "ea", "t"⟩, ⟨"b", 20, "eb", "t"⟩] []).filter
                  fun o => (if o.key = "b" then some "boom" else none).isNone),
                diffRetain [⟨"a", 10, "ea", "t"⟩, ⟨"b", 20, "eb", "t"⟩] []⟩⟩) ∧
        (((diffRetain [⟨"a", 10, "ea", "t"⟩, ⟨"b", 20, "eb", "t"⟩] []).filterMap
              (fun o => if o.key = "b" then some "boom" else none)).map
            (syncErrorMessage "s")).length =
          ((diffRetain [⟨"a", 10, "ea", "t"⟩, ⟨"b", 20, "eb", "t"⟩] []).filter
            fun o => (if o.key = "b" then some "boom" else none).isSome).length) :=
  migrate_bucket_drain_classification
    ⟨"s", "ak", "sk", "se", "d", "dk", "ds", "de", 1000, 5242880, 4, false⟩
    [⟨"a", 10, "ea", "t"⟩, ⟨"b", 20, "eb", "t"⟩] []
    (fun o => if o.key = "b" then some "boom" else none) rfl (by decide)

/-- Helper: in a source listing with pairwise-distinct keys, two members with
the same key are the same descriptor. -/
theorem src_key_inj_of_pairwise {src : List ObjectContents}
    (hkeys : src.Pairwise fun a b => a.key ≠ b.key) {o₁ o₂ : ObjectContents}
    (h₁ : o₁ ∈ src) (h₂ : o₂ ∈ src) (hk : o₁.key = o₂.key) : o₁ = o₂ := by
  by_contra hne
  have hsym : Symmetric fun (a b : ObjectContents) => a.key ≠ b.key := by
    intro a b h e
    exact h e.symm
  exact List.Pairwise.forall hsym hkeys h₁ h₂ hne hk

/-- Helper: diffing a source set against the post-state destination listing
retains nothing. -/
theorem diffRetain_destAfter (src : List ObjectContents)
    (hkeys : src.Pairwise fun a b => a.key ≠ b.key) :
    diffRetain src (destAfter src) = [] := by
  unfold diffRetain
  rw [List.filter_eq_nil_iff]
  intro o ho
  have hmemimg :
      (⟨some o.key, some o.etag, some (o.size : Int), some o.last_modified⟩ : RObject) ∈
        destAfter src :=
    List.mem_map_of_mem _ ho
  rcases hfind : (destAfter src).find? (fun r => r.key == some o.get_key) with _ | found
  · have := List.find?_eq_none.mp hfind _ hmemimg
    simp [ObjectContents.get_key] at this
  · rw [hfind]
    have hmem := List.mem_of_find?_eq_some hfind
    have hkeyf : found.key = some o.key := by
      simpa [ObjectContents.get_key] using List.find?_some hfind
    obtain ⟨o', ho', hfo⟩ := List.mem_map.mp hmem
    have ho'key : o'.key = o.key := by
      have : found.key = some o'.key := by
        rw [← hfo]
      rw [this] at hkeyf
      exact Option.some.injEq _ _ ▸ (by simpa using hkeyf)
    have hoo : o' = o := src_key_inj_of_pairwise hkeys ho' ho ho'key
    subst hoo
    rw [← hfo]
    simp [objectEq, ho'key]

/-- C5: a re-run with an unchanged source.  The first run (all uploads
succeeding) returns `Ok`; the second run, whose destination listing now shows
each source object with a matching key and etag, retains nothing — it returns
`synchronization_size = 0` with an empty objects list and issues no write for
any key, whatever the upload oracle would have done. -/
theorem migrate_bucket_second_run (conf : BucketMigrationConfiguration)
    (src : List ObjectContents) (dst₁ : List RObject)
    (upload₂ : ObjectContents → Option String)
    (hkeys : src.Pairwise fun a b => a.key ≠ b.key) :
    (migrate_bucket conf (.ok src) (.ok dst₁) (fun _ => none)).1.isOk = true ∧
      migrate_bucket conf (.ok src) (.ok (destAfter src)) upload₂ =
        (.ok ⟨conf.source_bucket, 0, []⟩, [MEvent.listSource, MEvent.listDest]) := by
  constructor
  · have herr := resultsErrors_uploadResults (fun _ => none) (diffRetain src dst₁)
    have hnone : (diffRetain src dst₁).filterMap
        (fun _ => (none : Option String)) = [] := by
      simp
    rw [hnone] at herr
    by_cases hd : conf.dry_run
    · simp [migrate_bucket, adjustDestListing, hd, Except.isOk, Except.toBool]
    · cases hie : (diffRetain src dst₁).isEmpty with
      | true => simp [migrate_bucket, adjustDestListing, hd, hie, Except.isOk, Except.toBool]
      | false =>
        simp [migrate_bucket, adjustDestListing, hd, hie, herr, Except.isOk, Except.toBool]
  · have hnil := diffRetain_destAfter src hkeys
    by_cases hd : conf.dry_run
    · simp [migrate_bucket, adjustDestListing, hd, hnil]
    · simp [migrate_bucket, adjustDestListing, hd, hnil]

/-- Witness for C5 at a concrete input: two objects, empty initial
destination; the second run returns size zero and an empty list even under an
always-failing oracle, because nothing is handed to the Uploader. -/
theorem migrate_bucket_second_run_witness :
    (migrate_bucket ⟨"s", "ak", "sk", "se", "d", "dk", "ds", "de", 1000, 5242880, 4, false⟩
          (Except.ok [⟨"a", 5, "ea", "t"⟩, ⟨"b", 6, "eb", "t"⟩]) (Except.ok [])
          (fun _ => none)).1.isOk = true ∧
      migrate_bucket ⟨"s", "ak", "sk", "se", "d", "dk", "ds", "de", 1000, 5242880, 4, false⟩
          (Except.ok [⟨"a", 5, "ea", "t"⟩, ⟨"b", 6, "eb", "t"⟩])
          (Except.ok (destAfter [⟨"a", 5, "ea", "t"⟩, ⟨"b", 6, "eb", "t"⟩]))
          (fun _ => some "boom") =
        (.ok ⟨"s", 0, []⟩, [MEvent.listSource, MEvent.listDest]) :=
  migrate_bucket_second_run
    ⟨"s", "ak", "sk", "se", "d", "dk", "ds", "de", 1000, 5242880, 4, false⟩
    [⟨"a", 5, "ea", "t"⟩, ⟨"b", 6, "eb", "t"⟩] [] (fun _ => some "boom")
    (by simp [List.pairwise_cons])

/-- C6 counterexample: a configuration whose `chunk_size` is 1 MiB — far
below the 5 MiB provider minimum — does not make `migrate_bucket` raise a
configuration error before any I/O: the run launches both listings and
returns `Ok`. -/
theorem migrate_bucket_small_chunk_counterexample :
    1048576 < 5242880 ∧
      migrate_bucket ⟨"b", "ak", "sk", "se", "d", "dk", "ds", "de", 1000, 1048576, 4, false⟩
          (Except.ok []) (Except.ok []) (fun _ => none) =
        (.ok ⟨"b", 0, []⟩, [MEvent.listSource, MEvent.listDest]) :=
  ⟨by norm_num, rfl⟩

/-- C6 (amended): `migrate_bucket` performs no `chunk_size` validation — its
outcome is independent of `chunk_size`, and for every configuration
(including any `chunk_size` below the 5 MiB multipart minimum) it launches
both listings instead of failing first. -/
theorem migrate_bucket_no_chunk_validation (conf : BucketMigrationConfiguration)
    (c : Nat) (srcListing : Except String (List ObjectContents))
    (dstListing : Except ListDstError (List RObject))
    (upload : ObjectContents → Option String) :
    (migrate_bucket { conf with chunk_size := c } srcListing dstListing upload).1 =
        (migrate_bucket conf srcListing dstListing upload).1 ∧
      (migrate_bucket conf srcListing dstListing upload).2.take 2 =
        [MEvent.listSource, MEvent.listDest] := by
  constructor
  · cases srcListing with
    | error e => rfl
    | ok src =>
      cases hd : conf.dry_run with
      | true =>
        cases hadj : adjustDestListing true dstListing with
        | error e => simp [migrate_bucket, hd, hadj]
        | ok dst => simp [migrate_bucket, hd, hadj]
      | false =>
        cases hadj : adjustDestListing false dstListing with
        | error e => simp [migrate_bucket, hd, hadj]
        | ok dst =>
          by_cases hie : diffRetain src dst = []
          · simp [migrate_bucket, hd, hadj, hie]
          · by_cases hre : resultsErrors (uploadResults upload (diffRetain src dst)) = []
            · simp [migrate_bucket, hd, hadj, hie, hre]
            · simp [migrate_bucket, hd, hadj, hie, hre]
  · cases srcListing with
    | error e => rfl
    | ok src =>
      cases hd : conf.dry_run with
      | true =>
        cases hadj : adjustDestListing true dstListing with
        | error e => simp [migrate_bucket, hd, hadj]
        | ok dst => simp [migrate_bucket, hd, hadj]
      | false =>
        cases hadj : adjustDestListing false dstListing with
        | error e => simp [migrate_bucket, hd, hadj]
        | ok dst =>
          by_cases hie : diffRetain src dst = []
          · simp [migrate_bucket, hd, hadj, hie]
          · by_cases hre : resultsErrors (uploadResults upload (diffRetain src dst)) = []
            · simp [migrate_bucket, hd, hadj, hie, hre]
            · simp [migrate_bucket, hd, hadj, hie, hre]

/-- C7: `put_object` sends exactly the header mapping of the spec —
`Content-Length` from the object size, `ACL` equal to `public-read` iff
`acl_public` and unset otherwise, and the seven metadata headers passed
through verbatim — and `create_multipart_upload` sends the same mapping minus
`Content-Length` and `Content-MD5` (its request record has neither field). -/
theorem put_object_header_mapping (gw : RadosGW) (key : String)
    (m : ObjectMetadataResponse) (size : Int) :
    (gw.put_object key m size).content_length = some size ∧
      (gw.put_object key m size).acl =
        (if m.acl_public then some "public-read" else none) ∧
      (gw.put_object key m size).cache_control = m.metadata.cache_control ∧
      (gw.put_object key m size).content_disposition = m.metadata.content_disposition ∧
      (gw.put_object key m size).content_encoding = m.metadata.content_encoding ∧
      (gw.put_object key m size).content_language = m.metadata.content_language ∧
      (gw.put_object key m size).content_md5 = m.metadata.content_md5 ∧
      (gw.put_object key m size).content_type = m.metadata.content_type ∧
      (gw.put_object key m size).expires = m.metadata.expires ∧
      (gw.create_multipart_upload key m).acl = (gw.put_object key m size).acl ∧
      (gw.create_multipart_upload key m).cache_control =
        (gw.put_object key m size).cache_control ∧
      (gw.create_multipart_upload key m).content_disposition =
        (gw.put_object key m size).content_disposition ∧
      (gw.create_multipart_upload key m).content_encoding =
        (gw.put_object key m size).content_encoding ∧
      (gw.create_multipart_upload key m).content_language =
        (gw.put_object key m size).content_language ∧
      (gw.create_multipart_upload key m).content_type =
        (gw.put_object key m size).content_type ∧
      (gw.create_multipart_upload key m).expires =
        (gw.put_object key m size).expires :=
  ⟨rfl, rfl, rfl, rfl, rfl, rfl, rfl, rfl, rfl, rfl, rfl, rfl, rfl, rfl, rfl, rfl⟩

/-- C9: `complete_multipart_upload` copies the caller-given pairs element-wise
in the caller-given order — for every input list the completed part list is
the order-preserving map copying each part number and etag — and it performs
no sorting, deduplication or contiguity check, as the concrete instance with
part numbers `[2, 1, 2]` shows: the output keeps them in that order, so the
ascending-part-number requirement holds only when the caller already supplies
the list sorted. -/
theorem complete_multipart_upload_parts_in_caller_order (gw : RadosGW) :
    (∀ (key upload_id : String) (parts : List (Nat × UploadPartOutput)),
      (gw.complete_multipart_upload key upload_id parts).multipart_upload =
        some ⟨some (parts.map fun p => ⟨p.2.e_tag, some (p.1 : Int)⟩)⟩) ∧
      (gw.complete_multipart_upload "k" "u"
          [(2, ⟨some "e2"⟩), (1, ⟨some "e1"⟩), (2, ⟨some "e2"⟩)]).multipart_upload =
        some ⟨some [⟨some "e2", some 2⟩, ⟨some "e1", some 1⟩, ⟨some "e2", some 2⟩]⟩ :=
  ⟨fun _ _ _ => rfl, rfl⟩

/-- Helper: with a configured destination name, every operation of the loop
targets the one derived name. -/
theorem cdbLoop_constant_target (name pfx : String) (dry_run : Bool)
    (probe : String → ProbeOutcome) (create : String → CreateOutcome)
    (missing : List String) :
    ∀ ev ∈ (cdbLoop (some name) pfx dry_run probe create missing).2,
      ev.target = pfx ++ name := by
  induction missing with
  | nil =>
    intro ev h
    simp [cdbLoop] at h
  | cons b rest ih =>
    intro ev h
    simp only [cdbLoop] at h
    cases dry_run with
    | true =>
      cases hp : probe (pfx ++ name) with
      | ok =>
        simp only [hp, if_true] at h
        rcases List.mem_cons.mp h with rfl | hmem
        · rfl
        · exact ih ev hmem
      | noSuchBucket =>
        simp only [hp, if_true] at h
        rcases List.mem_cons.mp h with rfl | hmem
        · rfl
        · exact ih ev hmem
      | otherError e =>
        simp only [hp, if_true] at h
        rcases List.mem_cons.mp h with rfl | hmem
        · rfl
        · simp at hmem
    | false =>
      cases hc : create (pfx ++ name) with
      | ok =>
        simp only [hc, if_false] at h
        rcases List.mem_cons.mp h with rfl | hmem
        · rfl
        · exact ih ev hmem
      | alreadyOwnedByYou =>
        simp only [hc, if_false] at h
        rcases List.mem_cons.mp h with rfl | hmem
        · rfl
        · exact ih ev hmem
      | otherError e =>
        simp only [hc, if_false] at h
        rcases List.mem_cons.mp h with rfl | hmem
        · rfl
        · simp at hmem

/-- C10: when the `destination_bucket` argument is `some name`, every missing
source bucket is probed or created under the single derived name
`pfx ++ name` rather than `pfx` + the source bucket name, so with two or more
missing source buckets all iterations target the same destination bucket. -/
theorem create_destination_buckets_single_target (name pfx : String)
    (buckets : List String) (dry_run : Bool) (radosgw_buckets : List RBucket)
    (probe : String → ProbeOutcome) (create : String → CreateOutcome)
    (res : Except String Unit) (trace : List CdbEvent)
    (h : create_destination_buckets (some name) pfx buckets dry_run
        radosgw_buckets probe create = some (res, trace)) :
    ∀ ev ∈ trace, ev.target = pfx ++ name := by
  unfold create_destination_buckets at h
  rcases hmiss : missingBuckets pfx buckets radosgw_buckets with _ | missing
  · rw [hmiss] at h
    cases h
  · rw [hmiss] at h
    have h' := Option.some.inj h
    have htr : trace = (cdbLoop (some name) pfx dry_run probe create missing).2 := by
      rw [h']
    rw [htr]
    exact cdbLoop_constant_target name pfx dry_run probe create missing

/-- Witness for C10 at a concrete input: two missing source buckets `a` and
`b` with configured destination name `d` — both iterations create `p-d`. -/
theorem create_destination_buckets_single_target_witness :
    (CdbEvent.createBucket "p-d").target = "p-" ++ "d" :=
  create_destination_buckets_single_target "d" "p-" ["a", "b"] false []
    (fun _ => .ok) (fun _ => .ok) (.ok ())
    [CdbEvent.createBucket "p-d", CdbEvent.createBucket "p-d"] rfl
    (CdbEvent.createBucket "p-d") (by simp)

/-- Helper: one iteration of the listing loop preserves the pagination
contract. -/
theorem pagination_step (fetch : Option String → List RObject) (fuel : Nat)
    (ih : ∀ acc res tr, list_objects_go fetch fuel acc = some (res, tr) →
      PaginationInv fetch acc res tr)
    (acc res : List RObject) (tr : List (Option String)) (sa : Option String)
    (hsa : sa = (acc.getLast?.bind fun o => o.key))
    (h : (if (fetch sa).isEmpty then some (acc, [sa])
          else
            match list_objects_go fetch fuel (acc ++ fetch sa) with
            | none => none
            | some (res, tr) => some (res, sa :: tr)) = some (res, tr)) :
    PaginationInv fetch acc res tr := by
  by_cases hp : (fetch sa).isEmpty = true
  · rw [if_pos hp] at h
    have hpage : fetch sa = [] := List.isEmpty_iff.mp hp
    have hpair := Option.some.inj h
    have hres : acc = res := congrArg Prod.fst hpair
    have htr : [sa] = tr := congrArg Prod.snd hpair
    subst hres
    subst htr
    refine ⟨by simp, by simp [hsa], by simp [hpage], by simp [hpage], ?_⟩
    intro i hi
    simp at hi
  · rw [if_neg hp] at h
    have hpne : fetch sa ≠ [] := by
      intro hcontr
      exact hp (by simp [hcontr])
    rcases hgo : list_objects_go fetch fuel (acc ++ fetch sa) with _ | rt
    · rw [hgo] at h
      cases h
    · obtain ⟨res', tr'⟩ := rt
      rw [hgo] at h
      have hpair := Option.some.inj h
      have hres' : res' = res := congrArg Prod.fst hpair
      have htr' : sa :: tr' = tr := congrArg Prod.snd hpair
      subst hres'
      subst htr'
      obtain ⟨htne, hhead, hres, hlast, hidx⟩ := ih _ _ _ hgo
      refine ⟨by simp, by simp [hsa], ?_, ?_, ?_⟩
      · rw [hres, List.map_cons, List.flatten_cons, List.append_assoc]
      · rcases tr' with _ | ⟨t0, trest⟩
        · exact absurd rfl htne
        · rw [List.map_cons, List.map_cons, List.getLast?_cons_cons]
          rw [List.map_cons] at hlast
          exact hlast
      · intro i hi
        cases i with
        | zero =>
          refine ⟨hpne, ?_⟩
          rcases tr' with _ | ⟨t0, trest⟩
          · exact absurd rfl htne
          · have h0 : ((sa :: t0 :: trest).get ⟨0 + 1, hi⟩) = t0 := rfl
            rw [h0]
            have ht0 : t0 = ((acc ++ fetch sa).getLast?.bind fun o => o.key) := by
              have hh := hhead
              simp only [List.head?_cons] at hh
              exact Option.some.inj hh
            rw [ht0]
            simp [List.take_succ_cons]
        | succ j =>
          have hj : j + 1 < tr'.length := by
            simp only [List.length_cons] at hi
            omega
          obtain ⟨hne', heq'⟩ := hidx j hj
          refine ⟨?_, ?_⟩
          · have hget : (sa :: tr').get ⟨j + 1, Nat.lt_of_succ_lt hi⟩ =
                tr'.get ⟨j, Nat.lt_of_succ_lt hj⟩ := rfl
            rw [hget]
            exact hne'
          · have hget : (sa :: tr').get ⟨j + 1 + 1, hi⟩ = tr'.get ⟨j + 1, hj⟩ := rfl
            rw [hget, heq', List.take_succ_cons, List.map_cons, List.flatten_cons,
              ← List.append_assoc]

/-- Helper: every successful run of the listing loop satisfies the
pagination contract. -/
theorem list_objects_go_pagination (fetch : Option String → List RObject) :
    ∀ (fuel : Nat) (acc res : List RObject) (tr : List (Option String)),
      list_objects_go fetch fuel acc = some (res, tr) →
      PaginationInv fetch acc res tr := by
  intro fuel
  induction fuel with
  | zero =>
    intro acc res tr h
    simp [list_objects_go] at h
  | succ fuel ih =>
    intro acc res tr h
    rcases hlast : acc.getLast? with _ | o
    · have hsa : (none : Option String) = (acc.getLast?.bind fun o => o.key) := by
        rw [hlast]
        rfl
      refine pagination_step fetch fuel ih acc res tr none hsa ?_
      rw [list_objects_go, hlast] at h
      exact h
    · rcases hkey : o.key with _ | k
      · rw [list_objects_go, hlast] at h
        simp [hkey] at h
      · have hsa : (some k : Option String) = (acc.getLast?.bind fun o => o.key) := by
          rw [hlast]
          simp [hkey]
        refine pagination_step fetch fuel ih acc res tr (some k) hsa ?_
        rw [list_objects_go, hlast] at h
        simp only [hkey] at h
        exact h

/-- C8: for every server behavior, a terminating run of
`RadosGW::list_objects` issues its first `list_objects_v2` request without
`start_after` and each later request with `start_after` equal to the key of
the last object received so far; it stops exactly when a page comes back
empty (the final page is empty and every earlier page is non-empty), and it
returns the concatenation of the pages in arrival order. -/
theorem list_objects_pagination (fetch : Option String → List RObject)
    (fuel : Nat) (res : List RObject) (tr : List (Option String))
    (h : list_objects fetch fuel = some (res, tr)) :
    tr.head? = some none ∧
      res = (tr.map fetch).flatten ∧
      (tr.map fetch).getLast? = some [] ∧
      ∀ i (hi : i + 1 < tr.length),
        fetch (tr.get ⟨i, Nat.lt_of_succ_lt hi⟩) ≠ [] ∧
        tr.get ⟨i + 1, hi⟩ =
          ((((tr.take (i + 1)).map fetch).flatten).getLast?.bind fun o => o.key) := by
  obtain ⟨-, hhead, hres, hlast, hidx⟩ :=
    list_objects_go_pagination fetch fuel [] res tr h
  refine ⟨by simpa using hhead, by simpa using hres, hlast, ?_⟩
  intro i hi
  obtain ⟨h1, h2⟩ := hidx i hi
  exact ⟨h1, by simpa using h2⟩

/-- Witness for C8 at a concrete input: the two-page server is drained in
three requests — no `start_after`, then after `a`, then after `b` — and the
result is the concatenation of the two non-empty pages. -/
theorem list_objects_pagination_witness :
    ([none, some "a", some "b"] : List (Option String)).head? = some none ∧
      [(⟨some "a", some "ea", some 1, none⟩ : RObject),
          ⟨some "b", some "eb", some 2, none⟩] =
        (([none, some "a", some "b"] : List (Option String)).map pagFetchExample).flatten ∧
      ((([none, some "a", some "b"] : List (Option String)).map
          pagFetchExample).getLast? = some []) := by
  have h := list_objects_pagination pagFetchExample 5
    [⟨some "a", some "ea", some 1, none⟩, ⟨some "b", some "eb", some 2, none⟩]
    [none, some "a", some "b"] rfl
  exact ⟨h.1, h.2.1, h.2.2.1⟩
